import Mathlib

set_option maxHeartbeats 1000000

namespace BlackMirror

/-- A JavaScript runtime / JSON value as it flows through black-mirror.js.
Tagged wire shapes that the code itself creates and discriminates on via a
`_type` field are represented by dedicated constructors (`wrappedBuf` for
`wrapped_js_object` with `wrapped_type` `ArrayBuffer`, `closureRef` for
`closure`, `retWrap` for `return_value`); a plain `obj` models an untagged
user object (values never spoof the reserved `_type` tags, matching the
source's own "assume the value is serializable" assumption).  A live
`ArrayBuffer` is `rawBuf` (its `Uint8Array` byte contents), a live function
is `rawFn` (identified by a reference id, so equal ids model JS `===` on
functions), and a `Closure` wrapper instance is `closure`. -/
inductive JV where
  | undef : JV
  | jnull : JV
  | bool (b : Bool) : JV
  | int (n : Int) : JV
  | str (s : String) : JV
  | rawFn (fnId : Nat) : JV
  | closure (fnId : Nat) : JV
  | rawBuf (bytes : List Nat) : JV
  | wrappedBuf (bytes : List Nat) : JV
  | closureRef (callback_from : Nat) : JV
  | retWrap (value : JV) : JV
  | arr (elems : List JV) : JV
  | obj (fields : List (String × JV)) : JV

/-- Errors thrown by the source: `jt` tag mismatches, `tc` type-check
failures, JS `TypeError`s from property access on `null`/`undefined`,
`assert`/`assert.equal`/`assert.deepEqual` failures, and the named `Error`s
of `sanityCheckLog`, `Closure.serialize` and the replay loop. -/
inductive CErr where
  | jtError (expected : String) : CErr
  | tcError : CErr
  | typeError : CErr
  | assertFailed (what : String) : CErr
  | notRecorded : CErr
  | didNotReturn : CErr
  | emptyLogHead : CErr
  | closureNotFound : CErr
  | returnedNonCalled : CErr
  | secondReturn : CErr
  | danglingCall : CErr
  | cantCompare : CErr
deriving DecidableEq, Repr

/-- Models `arrToBuf` (black-mirror.js:42): builds an `ArrayBuffer` by writing each
array element through a `Uint8Array` view, which truncates each value to a
byte. -/
def arrToBuf (hex : List Nat) : List Nat :=
  hex.map (· % 256)

/-- Models `bufToArr` (black-mirror.js:53): reads the bytes of an `ArrayBuffer`
through a `Uint8Array` view into a numeric array. -/
def bufToArr (bin : List Nat) : List Nat :=
  bin

/-- Models `typeof v === 'object'` (note `typeof null === 'object'` in JS, and
`typeof` of a function is `'function'`). -/
def typeofIsObject : JV → Bool
  | .undef => false
  | .bool _ => false
  | .int _ => false
  | .str _ => false
  | .rawFn _ => false
  | _ => true

/-- JS property lookup among a plain object's own fields. -/
def lookupField : List (String × JV) → String → Option JV
  | [], _ => none
  | (k, v) :: rest, key => if k = key then some v else lookupField rest key

/-- The `_type` discriminator of a value (`none` models `undefined`). -/
def jtag : JV → Option String
  | .closureRef _ => some "closure"
  | .wrappedBuf _ => some "wrapped_js_object"
  | .retWrap _ => some "return_value"
  | .obj fields =>
      match lookupField fields "_type" with
      | some (.str s) => some s
      | _ => none
  | _ => none

/-- Models `jt` (black-mirror.js:72): JSON `_type` tag check.  Reading `._type` of
`null`/`undefined` throws a `TypeError`. -/
def jt (json : JV) (ty : String) : Except CErr Unit :=
  match json with
  | .undef => .error .typeError
  | .jnull => .error .typeError
  | j => if jtag j = some ty then .ok () else .error (.jtError ty)

mutual
/-- Structural equality on values, modelling `assert.deepEqual` (and strict
`===` where both sides have the same shape). -/
def jvBeq : JV → JV → Bool
  | .undef, .undef => true
  | .jnull, .jnull => true
  | .bool a, .bool b => a == b
  | .int a, .int b => a == b
  | .str a, .str b => a == b
  | .rawFn a, .rawFn b => a == b
  | .closure a, .closure b => a == b
  | .rawBuf a, .rawBuf b => a == b
  | .wrappedBuf a, .wrappedBuf b => a == b
  | .closureRef a, .closureRef b => a == b
  | .retWrap a, .retWrap b => jvBeq a b
  | .arr a, .arr b => jvBeqList a b
  | .obj a, .obj b => jvBeqFields a b
  | _, _ => false
def jvBeqList : List JV → List JV → Bool
  | [], [] => true
  | a :: as, b :: bs => jvBeq a b && jvBeqList as bs
  | _, _ => false
def jvBeqFields : List (String × JV) → List (String × JV) → Bool
  | [], [] => true
  | (k, a) :: as, (l, b) :: bs => k == l && jvBeq a b && jvBeqFields as bs
  | _, _ => false
end

/-- Models `assert.equal` on non-object values: JS loose `==`; structural equality
plus `null == undefined`.  (Cross-type numeric coercion is never exercised
by values the recorder can produce.) -/
def looseEq (a b : JV) : Bool :=
  jvBeq a b ||
    ((jvBeq a .jnull || jvBeq a .undef) && (jvBeq b .jnull || jvBeq b .undef))

/-- Models `Closure` (black-mirror.js:79): a wrapper around a live function. -/
structure Closure where
  fn : Nat
deriving DecidableEq, Repr

/-- Models `Arguments` (black-mirror.js:225): the arguments of a call, each
function-typed entry replaced by a `Closure` by the constructor. -/
structure Arguments where
  args : List JV

/-- Models `ApiMessage` (black-mirror.js:355): one recorded Call. -/
structure ApiMessage where
  name : String
  args : Arguments

/-- The serialized Log events, discriminated in the source by `l._type`:
`api_message` (a Call with its serialized arguments array),
`api_message_return` (a CallReturn whose `value` field holds the serialized
`return_value` wrapper produced by `ReturnValue.serialize`), and
`closure_call` (a CallbackInvocation). -/
inductive SEvent where
  | apiMessage (name : String) (args : List JV) : SEvent
  | apiMessageReturn (from_api_message : Nat) (value : JV) : SEvent
  | closureCall (closure : JV) (args : List JV) : SEvent

def isReturnEvt : SEvent → Bool
  | .apiMessageReturn _ _ => true
  | _ => false

def isApiMessageEvt : SEvent → Bool
  | .apiMessage _ _ => true
  | _ => false

/-- The `Arguments` constructor body (black-mirror.js:228): wrap each
function argument in a `Closure`. -/
def Arguments.make (l : List JV) : Arguments :=
  ⟨l.map fun a =>
    match a with
    | .rawFn f => .closure f
    | x => x⟩

def isClosureJV : JV → Bool
  | .closure _ => true
  | _ => false

/-- Models `Arguments.prototype.closures` (black-mirror.js:239). -/
def Arguments.closures (a : Arguments) : List JV :=
  a.args.filter isClosureJV

/-- Models `Arguments.prototype.raw` (black-mirror.js:250): unwrap `Closure`s back
to raw functions. -/
def Arguments.raw (a : Arguments) : List JV :=
  a.args.map fun x =>
    match x with
    | .closure f => .rawFn f
    | y => y

/-- Models `ApiMessage.prototype.closure` (black-mirror.js:368): the first
`Closure` among the arguments, or `null` (modelled as `none`). -/
def ApiMessage.closure (m : ApiMessage) : Option Closure :=
  match m.args.closures with
  | .closure f :: _ => some ⟨f⟩
  | _ => none

/-- The scan of `Closure.prototype.serialize` (black-mirror.js:103): the
index of the first `ApiMessage` whose designated callback
(`apimessages[i].closure()`) is this exact function; a message with no
closure contributes `(null || \x7b\x7d).fn === undefined`, never a match. -/
def closureScan (fn : Nat) : List ApiMessage → Option Nat
  | [] => none
  | m :: rest =>
      match m.closure with
      | some c =>
          if c.fn = fn then some 0
          else (closureScan fn rest).map (· + 1)
      | none => (closureScan fn rest).map (· + 1)

/-- Models `Closure.prototype.serialize` (black-mirror.js:102): encode a function
as a CallbackRef by scanning the known Call list; throws
`'Closure callback not found in API messages'` when the scan fails. -/
def Closure.serialize (self : Closure) (ams : List ApiMessage) : Except CErr JV :=
  match closureScan self.fn ams with
  | some i => .ok (.closureRef i)
  | none => .error .closureNotFound

/-- Models `Closure.deserialize` (black-mirror.js:86): `jt` the json, `tc` that the
referenced context entry is an `ApiMessage` (out of range gives `undefined`,
failing `tc`), then return that message's designated callback — which is
`null` (`none`) when the message has no closure argument. -/
def Closure.deserializeJs (ams : List ApiMessage) (json : JV) :
    Except CErr (Option Closure) := do
  jt json "closure"
  match json with
  | .closureRef n =>
      if h : n < ams.length then .ok (ams[n].closure)
      else .error .tcError
  | _ => .error .tcError

/-- Models `Closure.prototype.assertEqual` (black-mirror.js:93): `jt`, then
`callback_from` must be a number; an index inside the replayed-Calls list
requires `this.fn === apimessages[idx].closure().fn` (a `TypeError` when
that call has no closure); an index beyond the list is accepted as a new
callback. -/
def Closure.assertEqual (self : Closure) (json : JV) (ams : List ApiMessage) :
    Except CErr Unit := do
  jt json "closure"
  match json with
  | .closureRef n =>
      if h : n < ams.length then
        match ams[n].closure with
        | some c =>
            if self.fn = c.fn then .ok ()
            else .error (.assertFailed "callback identity")
        | none => .error .typeError
      else .ok ()
  | _ => .error (.assertFailed "callback_from type")

/-- Models `value.data && value.data instanceof ArrayBuffer` (truthiness guard
first, so a `null` field does not throw here). -/
def hasDataBuffer (fields : List (String × JV)) : Bool :=
  match lookupField fields "data" with
  | some (.rawBuf _) => true
  | _ => false

/-- Models `typeof json.data === 'object' && json.data._type === 'wrapped_js_object'
&& json.data.wrapped_type === 'ArrayBuffer'`; a `null` `data` field passes
the `typeof` test and then throws a `TypeError` on `._type`. -/
def dataWrappedCheck (fields : List (String × JV)) : Except CErr Bool :=
  match lookupField fields "data" with
  | some .jnull => .error .typeError
  | some (.wrappedBuf _) => .ok true
  | _ => .ok false

mutual
/-- Models `JSWrappedObject.serialize` (black-mirror.js:126): wrap an
`ArrayBuffer`; recursively serialize the own fields of an object whose
`data` field is an `ArrayBuffer`; encode a `Closure` as a CallbackRef;
pass everything else through unchanged (`serialize(null)` throws reading
`null.data`). -/
def JSWrappedObject.serialize (ams : List ApiMessage) : JV → Except CErr JV
  | .rawBuf bs => .ok (.wrappedBuf (bufToArr bs))
  | .jnull => .error .typeError
  | .obj fields =>
      if hasDataBuffer fields then do
        let f2 ← JSWrappedObject.serializeFields ams fields
        .ok (.obj f2)
      else .ok (.obj fields)
  | .closure f => Closure.serialize ⟨f⟩ ams
  | v => .ok v
def JSWrappedObject.serializeFields (ams : List ApiMessage) :
    List (String × JV) → Except CErr (List (String × JV))
  | [] => .ok []
  | (k, v) :: rest => do
      let v2 ← JSWrappedObject.serialize ams v
      let r ← JSWrappedObject.serializeFields ams rest
      .ok ((k, v2) :: r)
end

mutual
/-- Models `JSWrappedObject.deserialize` (black-mirror.js:192): non-objects pass
through; a `closure` tag resolves through `Closure.deserialize`; an object
whose `data` field is a wrapped buffer has its own fields recursively
deserialized (with an empty context, as in the source); a
`wrapped_js_object` tag decodes through `arrToBuf`; any other object passes
through. -/
def JSWrappedObject.deserialize (ams : List ApiMessage) : JV → Except CErr JV
  | .undef => .ok .undef
  | .bool b => .ok (.bool b)
  | .int n => .ok (.int n)
  | .str s => .ok (.str s)
  | .rawFn f => .ok (.rawFn f)
  | .jnull => .error .typeError
  | .closureRef n => do
      let oc ← Closure.deserializeJs ams (.closureRef n)
      match oc with
      | some c => .ok (.closure c.fn)
      | none => .ok .jnull
  | .obj fields => do
      let w ← dataWrappedCheck fields
      if w then do
        let f2 ← JSWrappedObject.deserializeFields fields
        .ok (.obj f2)
      else .ok (.obj fields)
  | .wrappedBuf bs => .ok (.rawBuf (arrToBuf bs))
  | v => .ok v
def JSWrappedObject.deserializeFields :
    List (String × JV) → Except CErr (List (String × JV))
  | [] => .ok []
  | (k, v) :: rest => do
      let v2 ← JSWrappedObject.deserialize [] v
      let r ← JSWrappedObject.deserializeFields rest
      .ok ((k, v2) :: r)
end

mutual
/-- Models `JSWrappedObject.assertEqual` (black-mirror.js:154): non-object
expectations use loose `assert.equal`; an expected object whose `data`
field is a wrapped buffer requires the actual `data` to be an
`ArrayBuffer`, equal key lists and recursively equal fields; an actual
`Closure` defers to `Closure.assertEqual`; an untagged expectation uses
`assert.deepEqual`; a wrapped buffer expectation compares `bufToArr` of the
actual (which must be an `ArrayBuffer`) with the recorded bytes. -/
def JSWrappedObject.assertEqual (ams : List ApiMessage) (lifted json : JV) :
    Except CErr Unit :=
  if typeofIsObject json = false then
    if looseEq lifted json then .ok () else .error (.assertFailed "values differ")
  else
    match json with
    | .jnull => .error .typeError
    | .obj jfields => do
        let w ← dataWrappedCheck jfields
        if w then
          match lifted with
          | .obj lfields =>
              match lookupField lfields "data" with
              | some (.rawBuf _) =>
                  if jfields.map Prod.fst = lfields.map Prod.fst then
                    JSWrappedObject.assertEqualFields ams lfields jfields
                  else .error (.assertFailed "key sets")
              | _ => .error .tcError
          | _ => .error .tcError
        else
          match lifted with
          | .closure f => Closure.assertEqual ⟨f⟩ (.obj jfields) ams
          | _ =>
              if jvBeq lifted (.obj jfields) then .ok ()
              else .error (.assertFailed "deep equal")
    | j =>
        match lifted with
        | .closure f => Closure.assertEqual ⟨f⟩ j ams
        | _ =>
            if jtag j = some "wrapped_js_object" then
              match j, lifted with
              | .wrappedBuf bytes, .rawBuf bs =>
                  if bufToArr bs = bytes then .ok ()
                  else .error (.assertFailed "buffer bytes")
              | .wrappedBuf _, _ => .error .tcError
              | _, _ => .error .cantCompare
            else
              if jvBeq lifted j then .ok ()
              else .error (.assertFailed "deep equal")
def JSWrappedObject.assertEqualFields (ams : List ApiMessage) :
    List (String × JV) → List (String × JV) → Except CErr Unit
  | (_, lv) :: lrest, (_, jv) :: jrest => do
      JSWrappedObject.assertEqual ams lv jv
      JSWrappedObject.assertEqualFields ams lrest jrest
  | _, _ => .ok ()
end

/-- Models `Arguments.prototype.serialize` (black-mirror.js:243): the serialized
`args` array (the `_type: 'arguments'` tag is carried structurally). -/
def Arguments.serialize (a : Arguments) (ams : List ApiMessage) :
    Except CErr (List JV) :=
  a.args.mapM (JSWrappedObject.serialize ams)

/-- Models `Arguments.deserialize` (black-mirror.js:233). -/
def Arguments.deserialize (ams : List ApiMessage) (jsonArgs : List JV) :
    Except CErr Arguments := do
  let l ← jsonArgs.mapM (JSWrappedObject.deserialize ams)
  .ok (Arguments.make l)

/-- The element loop of `Arguments.prototype.assertEqual`
(black-mirror.js:263), reached only after the length assertion. -/
def assertEqualArgList (ams : List ApiMessage) :
    List JV → List JV → Except CErr Unit
  | lv :: ls, jv :: js => do
      JSWrappedObject.assertEqual ams lv jv
      assertEqualArgList ams ls js
  | _, _ => .ok ()

/-- Models `Arguments.prototype.assertEqual` (black-mirror.js:260):
`assert.equal(json.args.length, this.args.length)` before comparing the
positions pairwise. -/
def Arguments.assertEqual (a : Arguments) (jsonArgs : List JV)
    (ams : List ApiMessage) : Except CErr Unit :=
  if jsonArgs.length = a.args.length then assertEqualArgList ams a.args jsonArgs
  else .error (.assertFailed "argument count")

/-- Models `ApiMessage.prototype.assertEqual` (black-mirror.js:378): `_type` check,
name equality, then argument equality. -/
def ApiMessage.assertEqual (m : ApiMessage) (e : SEvent)
    (ams : List ApiMessage) : Except CErr Unit :=
  match e with
  | .apiMessage n sargs =>
      if n = m.name then m.args.assertEqual sargs ams
      else .error (.assertFailed "name")
  | _ => .error (.assertFailed "event type")

/-- Models `ClosureCall` (black-mirror.js:270). -/
structure ClosureCall where
  closure : Closure
  args : Arguments

/-- Models `ClosureCall.deserialize` (black-mirror.js:278): `jt` the event, resolve
the closure against the context, deserialize the arguments; the constructor's
`tc(closure, Closure)` rejects a `null` resolved callback. -/
def ClosureCall.deserialize (ams : List ApiMessage) (e : SEvent) :
    Except CErr ClosureCall :=
  match e with
  | .closureCall cj aj => do
      let oc ← Closure.deserializeJs ams cj
      let args ← Arguments.deserialize ams aj
      match oc with
      | some c => .ok ⟨c, args⟩
      | none => .error .tcError
  | _ => .error (.jtError "closure_call")

/-- Models `cc.callable().call(null)` (black-mirror.js:294, 117): invoking the
resolved live callback with the recorded raw arguments, observed as the
pair (function id, raw argument list). -/
def ClosureCall.invocation (cc : ClosureCall) : Nat × List JV :=
  (cc.closure.fn, cc.args.raw)

/-- Models `ReturnValue` (black-mirror.js:300). -/
structure ReturnValue where
  value : JV

/-- Models `ReturnValue.deserialize` (black-mirror.js:304): `jt` the json, then
`new ReturnValue(json)` — the source stores the whole serialized
`return_value` wrapper as the value, not the `value` field inside it. -/
def ReturnValue.deserialize (json : JV) : Except CErr ReturnValue := do
  jt json "return_value"
  .ok ⟨json⟩

/-- Models `ApiMessageReturn` after deserialization, with the referenced
`ApiMessage` identified by its position in the context list (positions model
JS object identity: each replayed call pushes a fresh object). -/
structure ApiMessageReturn where
  from_api_message : Nat
  value : ReturnValue

/-- Models `ApiMessageReturn.deserialize` (black-mirror.js:332): the value is
deserialized (its `jt` runs first), then the constructor's
`tc(apimessage, ApiMessage)` rejects an out-of-range reference. -/
def ApiMessageReturn.deserialize (ams : List ApiMessage) (f : Nat) (w : JV) :
    Except CErr ApiMessageReturn := do
  let rv ← ReturnValue.deserialize w
  if f < ams.length then .ok ⟨f, rv⟩ else .error .tcError

/-- The Checker's mutable state (black-mirror.js:406): the residual serial
Log, the replayed-Calls list (`runMessageLog`, which only ever holds
`ApiMessage`s, pushed at black-mirror.js:497), and the number of armed
deferred tasks (`this.next`, whose scheduler handle is truthy as node's
`setTimeout` handle is).  The mirrored api object tree and the method list
are namespace glue excluded by spec §1. -/
structure Checker where
  serialLog : List SEvent
  runMessageLog : List ApiMessage
  pending : Nat

/-- The `returns.forEach` body of `sanityCheckLog` (black-mirror.js:434),
with each cell of the `calls` array abstracted to a `Bool` marker: `false`
while it still holds the (truthy) filtered event, `true` once overwritten
with `'returned'`; an out-of-range index reads `undefined`, which is falsy. -/
def sanityLoop : List SEvent → List Bool → Except CErr (List Bool)
  | [], marks => .ok marks
  | .apiMessageReturn f _ :: rest, marks =>
      match marks[f]? with
      | none => .error .returnedNonCalled
      | some true => .error .secondReturn
      | some false => sanityLoop rest (marks.set f true)
  | _ :: rest, marks => sanityLoop rest marks

/-- Models `Checker.prototype.sanityCheckLog` (black-mirror.js:426).  Note that the
source filters BOTH `returns` and `calls` with the same
`l._type == 'api_message_return'` predicate (black-mirror.js:428 and 431),
so `calls` is in fact the list of return events; the embedding preserves
this faithfully. -/
def Checker.sanityCheckLog (jsonLog : List SEvent) : Except CErr Unit := do
  let returnEvents := jsonLog.filter isReturnEvt
  let calls := jsonLog.filter isReturnEvt
  let marks ← sanityLoop returnEvents (calls.map fun _ => false)
  if marks.all (fun m => m) then .ok () else .error .danglingCall

/-- Models `Checker.prototype.done` (black-mirror.js:460):
`assert.deepEqual(this.serialLog, [])`. -/
def Checker.done (st : Checker) : Except CErr Unit :=
  match st.serialLog with
  | [] => .ok ()
  | _ :: _ => .error (.assertFailed "serialLog not empty")

/-- Models `Checker.prototype.scheduleWake` arming (black-mirror.js:464):
`if (this.next) return;` then schedule one deferred task. -/
def Checker.scheduleWake (st : Checker) : Checker :=
  if st.pending = 0 then { st with pending := 1 } else st

/-- The synchronous emulation loop of `wrapMethod` (black-mirror.js:500):
`while (serialLog[0]._type !== 'api_message_return')` — reading the head of
an empty log throws a `TypeError` (`emptyLogHead`); otherwise shift the
event, deserialize it as a `ClosureCall` against the replayed-Calls list,
invoke it, and `assert(serialLog.length > 0)`.  Returns the invocations in
order, the return event's fields and the remaining log. -/
def emulate (runLog : List ApiMessage) :
    List SEvent → Except CErr (List (Nat × List JV) × Nat × JV × List SEvent)
  | [] => .error .emptyLogHead
  | .apiMessageReturn f w :: rest => .ok ([], f, w, rest)
  | e :: rest => do
      let cc ← ClosureCall.deserialize runLog e
      match rest with
      | [] => .error .didNotReturn
      | r :: rs => do
          let (invs, f, w, rest2) ← emulate runLog (r :: rs)
          .ok (cc.invocation :: invs, f, w, rest2)

/-- The body of `checkedMethod` (black-mirror.js:481) up to but excluding
the final `scheduleWake`: assert the log is non-empty, shift the expected
Call, check the actual call against it, push it onto the replayed-Calls
list, run the emulation loop, deserialize the `ApiMessageReturn` and assert
it references the Call just matched (position equality models the source's
`retobj.apimessage === currentAm`).  Yields the value the method returns,
the residual log, the new replayed-Calls list and the invocation trace. -/
def Checker.replayCore (st : Checker) (name : String) (rawArgs : List JV) :
    Except CErr (JV × List SEvent × List ApiMessage × List (Nat × List JV)) :=
  match st.serialLog with
  | [] => .error .notRecorded
  | am :: rest => do
      let currentAm : ApiMessage := ⟨name, Arguments.make rawArgs⟩
      currentAm.assertEqual am st.runMessageLog
      let runLog2 := st.runMessageLog ++ [currentAm]
      let (invs, f, w, rest2) ← emulate runLog2 rest
      let retobj ← ApiMessageReturn.deserialize runLog2 f w
      if retobj.from_api_message = st.runMessageLog.length then
        .ok (retobj.value.value, rest2, runLog2, invs)
      else .error (.assertFailed "return references wrong call")

/-- Models `Checker.prototype.wrapMethod`'s `checkedMethod` (black-mirror.js:481):
`replayCore`, then arm the scheduler and return `retobj.value.value`. -/
def Checker.checkedMethod (st : Checker) (name : String) (rawArgs : List JV) :
    Except CErr (JV × Checker × List (Nat × List JV)) := do
  let (w, rest2, runLog2, invs) ← st.replayCore name rawArgs
  .ok (w, Checker.scheduleWake ⟨rest2, runLog2, st.pending⟩, invs)

/-- The deferred task body of `scheduleWake` (black-mirror.js:467): clear
`this.next`; if the head of the residual log is a `closure_call`, shift it,
deserialize it against the replayed-Calls list, invoke it and re-arm;
otherwise (a Call at the head, or an empty log) do nothing. -/
def Checker.wake (st : Checker) :
    Except CErr (Checker × Option (Nat × List JV)) :=
  match st.serialLog with
  | .closureCall cj aj :: rest => do
      let cc ← ClosureCall.deserialize st.runMessageLog (.closureCall cj aj)
      .ok (Checker.scheduleWake ⟨rest, st.runMessageLog, st.pending - 1⟩,
           some cc.invocation)
  | _ => .ok (⟨st.serialLog, st.runMessageLog, st.pending - 1⟩, none)

/-- Checker states reachable from a freshly constructed Checker over a
serialized log: the program under test may invoke instrumented methods
(successfully), and the platform may fire an armed deferred task. -/
inductive Reach (log0 : List SEvent) : Checker → Prop where
  | init : Reach log0 ⟨log0, [], 0⟩
  | call (st : Checker) (n : String) (a : List JV) (v : JV) (st2 : Checker)
      (invs : List (Nat × List JV)) :
      Reach log0 st → st.checkedMethod n a = .ok (v, st2, invs) →
      Reach log0 st2
  | fire (st st2 : Checker) (inv : Option (Nat × List JV)) :
      Reach log0 st → 1 ≤ st.pending → st.wake = .ok (st2, inv) →
      Reach log0 st2

/-- C2: the claim says Checker construction rejects every Log violating a §3
completeness invariant.  It does not: because `sanityCheckLog` filters its
`calls` list with the same `api_message_return` predicate as `returns`
(black-mirror.js:431), a Log whose single event is a CallReturn referencing
Call index 0 is accepted although it contains no Call at all (unmatched
CallReturn), and a Log with two Calls of which the second has no CallReturn
anywhere is accepted as well (dangling Call). -/
theorem c2_sanity_check_accepts_invalid_logs :
    Checker.sanityCheckLog [.apiMessageReturn 0 (.retWrap (.bool true))] = .ok ()
    ∧ ([SEvent.apiMessageReturn 0 (.retWrap (.bool true))].filter isApiMessageEvt) = []
    ∧ Checker.sanityCheckLog
        [.apiMessage "a" [], .apiMessage "b" [],
         .apiMessageReturn 0 (.retWrap .undef)] = .ok ()
    ∧ ([SEvent.apiMessage "a" [], SEvent.apiMessage "b" [],
        SEvent.apiMessageReturn 0 (.retWrap .undef)].filter isReturnEvt).length = 1 :=
  ⟨rfl, rfl, rfl, rfl⟩

/-- C10: the claim says a Log accepted by the construction-time sanity check
never makes the synchronous-replay loop read the head of an empty residual
Log.  The one-event Log `[Call "m"]` is accepted by `sanityCheckLog` (its
return list is empty, see C2's analysis), yet replaying the call matches and
consumes the Call and then evaluates `serialLog[0]._type` on the now-empty
residual Log — the out-of-bounds head access (`emptyLogHead` models that
`TypeError`). -/
theorem c10_accepted_log_reads_empty_head :
    Checker.sanityCheckLog [.apiMessage "m" []] = .ok ()
    ∧ Checker.checkedMethod ⟨[.apiMessage "m" []], [], 0⟩ "m" []
        = .error .emptyLogHead :=
  ⟨rfl, rfl⟩

/-- C3: the claim says an instrumented method returns the recorded return
value itself (`true` for the farewell call), not a serialization wrapper.
Because `ReturnValue.deserialize` wraps the whole serialized json
(black-mirror.js:306), the method actually returns the `return_value`
wrapper object around `true`, which is not `true`. -/
theorem c3_returns_serialization_wrapper :
    Checker.checkedMethod
      ⟨[.apiMessage "farewell" [.str "x"],
        .apiMessageReturn 0 (.retWrap (.bool true))], [], 0⟩
      "farewell" [.str "x"]
      = .ok (.retWrap (.bool true), ⟨[], [⟨"farewell", ⟨[.str "x"]⟩⟩], 1⟩, [])
    ∧ JV.retWrap (.bool true) ≠ JV.bool true :=
  ⟨rfl, fun h => JV.noConfusion h⟩

/-- C6 counterexample: the claim says `Closure.serialize` fails iff no Call
in the context contains the function among its arguments.  In the context
consisting of one Call carrying two function arguments (ids 0 and 1), the
function with id 1 *is* among the Call's arguments, yet serialization
fails, because the scan only consults each Call's designated callback —
its first closure argument (black-mirror.js:104 together with 368). -/
theorem c6_second_function_argument_not_serializable :
    (JV.closure 1) ∈ (Arguments.make [.rawFn 0, .rawFn 1]).args
    ∧ Closure.serialize ⟨1⟩ [⟨"m", Arguments.make [.rawFn 0, .rawFn 1]⟩]
        = .error .closureNotFound :=
  ⟨by simp [Arguments.make], rfl⟩

/-- C9: `Arguments.prototype.assertEqual` asserts that the recorded and
actual argument counts agree before any positional comparison, so a call
whose argument count differs from the recording fails with the count
assertion no matter what the individual positions hold. -/
theorem c9_argument_count_asserted_first (a : Arguments) (sargs : List JV)
    (ams : List ApiMessage) (h : sargs.length ≠ a.args.length) :
    Arguments.assertEqual a sargs ams = .error (.assertFailed "argument count") := by
  unfold Arguments.assertEqual
  simp [h]

/-- Witness for C9 at a concrete input: the recording expects one argument,
the actual call passes none; every common position (there are none)
matches, yet the count assertion fails. -/
theorem c9_argument_count_asserted_first_witness :
    Arguments.assertEqual ⟨[.int 1]⟩ [] []
      = .error (.assertFailed "argument count") :=
  c9_argument_count_asserted_first ⟨[.int 1]⟩ [] [] (by decide)

/-- C8: an instrumented method invoked on an empty residual Log fails
immediately with the unexpected-call assertion (`'Method call not
recorded'`) — the error is raised before anything is consumed or produced —
and `done()` succeeds exactly when the residual Log is empty, so a program
that drives every recorded event to completion passes `done()`, one that
stops early fails it, and one extra unrecorded call fails at that call. -/
theorem c8_unexpected_call_and_done (st : Checker) (n : String) (a : List JV) :
    (st.serialLog = [] → st.checkedMethod n a = .error .notRecorded)
    ∧ (st.done = .ok () ↔ st.serialLog = []) := by
  constructor
  · intro h
    unfold Checker.checkedMethod Checker.replayCore
    rw [h]
    rfl
  · unfold Checker.done
    cases hl : st.serialLog <;> simp

/-- Witness for C8 at a concrete input: the empty-log Checker rejects any
call and accepts `done()`. -/
theorem c8_unexpected_call_and_done_witness :
    Checker.checkedMethod ⟨[], [], 0⟩ "m" [] = .error .notRecorded
    ∧ (Checker.done ⟨[], [], 0⟩ = .ok () ↔ ([] : List SEvent) = []) :=
  ⟨(c8_unexpected_call_and_done ⟨[], [], 0⟩ "m" []).1 rfl,
   (c8_unexpected_call_and_done ⟨[], [], 0⟩ "m" []).2⟩

/-- C5: during replay, a CallbackRef argument is judged equal exactly when
its recorded provenance index lies beyond the replayed-Calls list (a
brand-new callback, accepted whatever live function is passed), or it
refers to an already-replayed Call whose recorded callback is the identical
live function; in particular a different function where identity is
required, or a reference to a replayed Call that recorded no callback,
raises a failure. -/
theorem c5_callbackref_identity (fn n : Nat) (ams : List ApiMessage) :
    Closure.assertEqual ⟨fn⟩ (.closureRef n) ams = .ok () ↔
      (ams.length ≤ n ∨
        ∃ m : ApiMessage, ams[n]? = some m ∧ m.closure = some ⟨fn⟩) := by
  have hred : Closure.assertEqual ⟨fn⟩ (.closureRef n) ams =
      (if h : n < ams.length then
        match ams[n].closure with
        | some c =>
            if fn = c.fn then Except.ok ()
            else Except.error (CErr.assertFailed "callback identity")
        | none => Except.error CErr.typeError
      else Except.ok ()) := rfl
  rw [hred]
  by_cases h : n < ams.length
  · rw [dif_pos h]
    have hget : ams[n]? = some ams[n] := List.getElem?_eq_getElem h
    cases hc : ams[n].closure with
    | none =>
        constructor
        · intro hh; exact absurd hh (by simp)
        · rintro (hle | ⟨m, hm, hcl⟩)
          · omega
          · rw [hget] at hm
            cases hm
            rw [hc] at hcl
            exact absurd hcl (by simp)
    | some c =>
        show (if fn = c.fn then (Except.ok () : Except CErr Unit)
            else Except.error (CErr.assertFailed "callback identity"))
          = Except.ok () ↔ _
        by_cases hfn : fn = c.fn
        · rw [if_pos hfn]
          constructor
          · intro _
            right
            refine ⟨ams[n], hget, ?_⟩
            rw [hc]
            cases c
            cases hfn
            rfl
          · intro _; rfl
        · rw [if_neg hfn]
          constructor
          · intro hh; exact absurd hh (by simp)
          · rintro (hle | ⟨m, hm, hcl⟩)
            · omega
            · rw [hget] at hm
              cases hm
              rw [hc] at hcl
              cases hcl
              exact absurd rfl hfn
  · rw [dif_neg h]
    constructor
    · intro _; left; omega
    · intro _; rfl

/-- Witness for C5 at concrete inputs: a brand-new-callback reference (index
beyond the replayed list) accepts any live function, and an in-range
reference accepts the identical function. -/
theorem c5_callbackref_identity_witness :
    Closure.assertEqual ⟨7⟩ (.closureRef 0) [] = .ok ()
    ∧ Closure.assertEqual ⟨7⟩ (.closureRef 0)
        [⟨"m", Arguments.make [.rawFn 7]⟩] = .ok () :=
  ⟨(c5_callbackref_identity 7 0 []).mpr (Or.inl (by simp)),
   (c5_callbackref_identity 7 0 [⟨"m", Arguments.make [.rawFn 7]⟩]).mpr
     (Or.inr ⟨⟨"m", Arguments.make [.rawFn 7]⟩, rfl, rfl⟩)⟩

lemma closureScan_none_iff (fn : Nat) : ∀ ams : List ApiMessage,
    closureScan fn ams = none ↔ ∀ m ∈ ams, m.closure ≠ some ⟨fn⟩ := by
  intro ams
  induction ams with
  | nil => simp [closureScan]
  | cons m rest ih =>
      cases hm : m.closure with
      | none =>
          have hscan : closureScan fn (m :: rest) = (closureScan fn rest).map (· + 1) := by
            simp only [closureScan]
            rw [hm]
          rw [hscan, Option.map_eq_none', ih]
          constructor
          · intro hr x hx
            rcases List.mem_cons.mp hx with rfl | hx2
            · rw [hm]; simp
            · exact hr x hx2
          · intro hr x hx
            exact hr x (List.mem_cons_of_mem m hx)
      | some c =>
          by_cases hc : c.fn = fn
          · have hscan : closureScan fn (m :: rest) = some 0 := by
              simp only [closureScan]
              rw [hm]
              simp [hc]
            rw [hscan]
            constructor
            · intro hh; exact absurd hh (by simp)
            · intro hr
              exfalso
              refine hr m (List.mem_cons_self m rest) ?_
              rw [hm]
              cases c
              cases hc
              rfl
          · have hscan : closureScan fn (m :: rest) = (closureScan fn rest).map (· + 1) := by
              simp only [closureScan]
              rw [hm]
              simp [hc]
            rw [hscan, Option.map_eq_none', ih]
            constructor
            · intro hr x hx
              rcases List.mem_cons.mp hx with rfl | hx2
              · rw [hm]
                intro hcl
                cases hcl
                exact hc rfl
              · exact hr x hx2
            · intro hr x hx
              exact hr x (List.mem_cons_of_mem m hx)

lemma closureScan_some (fn : Nat) : ∀ (ams : List ApiMessage) (i : Nat),
    closureScan fn ams = some i →
    ∃ m, ams[i]? = some m ∧ m.closure = some ⟨fn⟩ := by
  intro ams
  induction ams with
  | nil => intro i h; exact absurd h (by simp [closureScan])
  | cons m rest ih =>
      intro i h
      cases hm : m.closure with
      | none =>
          have hscan : closureScan fn (m :: rest) = (closureScan fn rest).map (· + 1) := by
            simp only [closureScan]
            rw [hm]
          rw [hscan] at h
          cases hs : closureScan fn rest with
          | none => rw [hs] at h; exact absurd h (by simp)
          | some j =>
              rw [hs] at h
              simp only [Option.map_some'] at h
              injection h with h
              obtain ⟨m2, hm2, hc2⟩ := ih j hs
              refine ⟨m2, ?_, hc2⟩
              rw [← h]
              simpa using hm2
      | some c =>
          by_cases hc : c.fn = fn
          · have hscan : closureScan fn (m :: rest) = some 0 := by
              simp only [closureScan]
              rw [hm]
              simp [hc]
            rw [hscan] at h
            injection h with h
            refine ⟨m, ?_, ?_⟩
            · rw [← h]; simp
            · rw [hm]
              cases c
              cases hc
              rfl
          · have hscan : closureScan fn (m :: rest) = (closureScan fn rest).map (· + 1) := by
              simp only [closureScan]
              rw [hm]
              simp [hc]
            rw [hscan] at h
            cases hs : closureScan fn rest with
            | none => rw [hs] at h; exact absurd h (by simp)
            | some j =>
                rw [hs] at h
                simp only [Option.map_some'] at h
                injection h with h
                obtain ⟨m2, hm2, hc2⟩ := ih j hs
                refine ⟨m2, ?_, hc2⟩
                rw [← h]
                simpa using hm2

/-- C6 amended: serializing a function against a Call-list context returns a
CallbackRef carrying the index of a Call whose *designated callback* — its
first function-valued argument, the one `ApiMessage.closure()` yields — is
that exact function, and it raises an error iff no Call in the context has
that function as its designated callback (so serialization succeeds for
every function that is the first function argument of some Call, but not
necessarily for functions appearing only in later argument positions). -/
theorem c6_closure_serialize_designated_callback (fn : Nat) (ams : List ApiMessage) :
    (∀ i, Closure.serialize ⟨fn⟩ ams = .ok (.closureRef i) →
        ∃ m, ams[i]? = some m ∧ m.closure = some ⟨fn⟩)
    ∧ ((∃ e, Closure.serialize ⟨fn⟩ ams = .error e) ↔
        ∀ m ∈ ams, m.closure ≠ some ⟨fn⟩) := by
  constructor
  · intro i hi
    unfold Closure.serialize at hi
    cases hs : closureScan fn ams with
    | none => rw [hs] at hi; exact absurd hi (by simp)
    | some j =>
        rw [hs] at hi
        simp only [Except.ok.injEq, JV.closureRef.injEq] at hi
        subst hi
        exact closureScan_some fn ams j hs
  · rw [← closureScan_none_iff fn ams]
    unfold Closure.serialize
    cases hs : closureScan fn ams with
    | none => simp
    | some j => simp

/-- Witness for C6's theorem at a concrete input: a function that is the
first function argument of the only Call serializes to that Call's index. -/
theorem c6_closure_serialize_designated_callback_witness :
    ∃ m, ([(⟨"m", Arguments.make [.rawFn 5]⟩ : ApiMessage)][0]?) = some m
      ∧ m.closure = some ⟨5⟩ :=
  (c6_closure_serialize_designated_callback 5 [⟨"m", Arguments.make [.rawFn 5]⟩]).1 0 rfl

lemma arrToBuf_bytes : ∀ (l : List Nat), (∀ b ∈ l, b < 256) → arrToBuf l = l
  | [], _ => rfl
  | b :: tl, h => by
      have hb : b % 256 = b := Nat.mod_eq_of_lt (h b (List.mem_cons_self b tl))
      have ht := arrToBuf_bytes tl (fun x hx => h x (List.mem_cons_of_mem b hx))
      unfold arrToBuf at ht ⊢
      simp [hb, ht]

/-- C7: encoding a binary buffer yields the tagged wrapped object carrying
its bytes as a numeric array, and decoding that object restores a buffer
with the same length and byte contents; the same round trip holds for a
buffer sitting one level deep inside a compound value (an object whose
`data` field holds the buffer, next to other plain fields). -/
theorem c7_buffer_roundtrip (bs : List Nat) (s : String) (ams : List ApiMessage)
    (h : ∀ b ∈ bs, b < 256) :
    JSWrappedObject.serialize ams (.rawBuf bs) = .ok (.wrappedBuf bs)
    ∧ JSWrappedObject.deserialize ams (.wrappedBuf bs) = .ok (.rawBuf bs)
    ∧ JSWrappedObject.serialize ams (.obj [("data", .rawBuf bs), ("tag", .str s)])
        = .ok (.obj [("data", .wrappedBuf bs), ("tag", .str s)])
    ∧ JSWrappedObject.deserialize ams (.obj [("data", .wrappedBuf bs), ("tag", .str s)])
        = .ok (.obj [("data", .rawBuf bs), ("tag", .str s)]) := by
  have harr : arrToBuf bs = bs := arrToBuf_bytes bs h
  refine ⟨rfl, ?_, rfl, ?_⟩
  · show Except.ok (JV.rawBuf (arrToBuf bs)) = Except.ok (JV.rawBuf bs)
    rw [harr]
  · show Except.ok (JV.obj [("data", JV.rawBuf (arrToBuf bs)), ("tag", JV.str s)])
      = Except.ok (JV.obj [("data", JV.rawBuf bs), ("tag", JV.str s)])
    rw [harr]

/-- Witness for C7 at a concrete input: the byte sequence 1, 2, 3. -/
theorem c7_buffer_roundtrip_witness :
    JSWrappedObject.serialize [] (.rawBuf [1, 2, 3]) = .ok (.wrappedBuf [1, 2, 3])
    ∧ JSWrappedObject.deserialize []
        (.obj [("data", .wrappedBuf [1, 2, 3]), ("tag", .str "x")])
      = .ok (.obj [("data", .rawBuf [1, 2, 3]), ("tag", .str "x")]) :=
  ⟨(c7_buffer_roundtrip [1, 2, 3] "x" [] (by decide)).1,
   (c7_buffer_roundtrip [1, 2, 3] "x" [] (by decide)).2.2.2⟩

lemma emulate_append (runLog : List ApiMessage) :
    ∀ (ccs : List SEvent) (objs : List ClosureCall) (f : Nat) (w : JV)
      (rest : List SEvent),
      ccs.mapM (ClosureCall.deserialize runLog) = .ok objs →
      emulate runLog (ccs ++ .apiMessageReturn f w :: rest) =
        .ok (objs.map ClosureCall.invocation, f, w, rest) := by
  intro ccs
  induction ccs with
  | nil =>
      intro objs f w rest hm
      simp only [List.mapM_nil, pure, Except.pure, Except.ok.injEq] at hm
      subst hm
      rfl
  | cons e ccs ih =>
      intro objs f w rest hm
      rw [List.mapM_cons] at hm
      cases hd : ClosureCall.deserialize runLog e with
      | error er =>
          rw [hd] at hm
          exact absurd hm (by simp [Bind.bind, Except.bind])
      | ok o =>
          rw [hd] at hm
          cases hts : ccs.mapM (ClosureCall.deserialize runLog) with
          | error er =>
              rw [hts] at hm
              exact absurd hm (by simp [Bind.bind, Except.bind])
          | ok os =>
              rw [hts] at hm
              simp only [Bind.bind, Except.bind, pure, Except.pure,
                Except.ok.injEq] at hm
              subst hm
              cases e with
              | apiMessage nm ar =>
                  exact absurd hd (by simp [ClosureCall.deserialize])
              | apiMessageReturn g gv =>
                  exact absurd hd (by simp [ClosureCall.deserialize])
              | closureCall cj aj =>
                  obtain ⟨r, rs, hcc⟩ :
                      ∃ r rs, ccs ++ SEvent.apiMessageReturn f w :: rest = r :: rs := by
                    cases ccs with
                    | nil => exact ⟨_, _, rfl⟩
                    | cons a l => exact ⟨_, _, rfl⟩
                  have hrec := ih os f w rest hts
                  simp only [List.cons_append, emulate]
                  rw [hd, hcc]
                  dsimp only [Bind.bind, Except.bind]
                  rw [← hcc, hrec]
                  rfl

/-- C1: when the matched Call at the head of the residual Log is followed by
zero or more CallbackInvocation events and then a CallReturn, the replay of
an instrumented call pops each CallbackInvocation in order, resolves it
against the replayed-Calls list (the hypothesis `hde` resolves them against
`runMessageLog` extended with the Call just matched), and invokes the
resolved live callbacks with the recorded arguments — the invocation trace
is exactly `objs.map ClosureCall.invocation`, delivered before the method
returns; the CallReturn popped afterwards is asserted to reference exactly
the Call just matched: replay succeeds when its reference equals the
matched Call's position and fails otherwise. -/
theorem c1_synchronous_callbacks_replayed
    (st : Checker) (name : String) (rawArgs : List JV)
    (an : String) (aargs : List JV) (ccs : List SEvent) (objs : List ClosureCall)
    (f : Nat) (v : JV) (rest : List SEvent)
    (hlog : st.serialLog =
      .apiMessage an aargs :: (ccs ++ .apiMessageReturn f (.retWrap v) :: rest))
    (hmatch : ApiMessage.assertEqual ⟨name, Arguments.make rawArgs⟩
        (.apiMessage an aargs) st.runMessageLog = .ok ())
    (hde : ccs.mapM (ClosureCall.deserialize
        (st.runMessageLog ++ [⟨name, Arguments.make rawArgs⟩])) = .ok objs) :
    (f = st.runMessageLog.length →
      st.checkedMethod name rawArgs =
        .ok (.retWrap v,
          Checker.scheduleWake
            ⟨rest, st.runMessageLog ++ [⟨name, Arguments.make rawArgs⟩], st.pending⟩,
          objs.map ClosureCall.invocation))
    ∧ (f ≠ st.runMessageLog.length →
        ∃ e, st.checkedMethod name rawArgs = .error e) := by
  have hemu := emulate_append (st.runMessageLog ++ [⟨name, Arguments.make rawArgs⟩])
      ccs objs f (.retWrap v) rest hde
  have hcore : st.replayCore name rawArgs =
      (if f < st.runMessageLog.length + 1 then
        if f = st.runMessageLog.length then
          Except.ok (JV.retWrap v, rest,
            st.runMessageLog ++ [⟨name, Arguments.make rawArgs⟩],
            objs.map ClosureCall.invocation)
        else Except.error (CErr.assertFailed "return references wrong call")
      else Except.error CErr.tcError) := by
    unfold Checker.replayCore
    rw [hlog]
    show (do
        ApiMessage.assertEqual (ApiMessage.mk name (Arguments.make rawArgs))
          (.apiMessage an aargs) st.runMessageLog
        let runLog2 : List ApiMessage :=
          st.runMessageLog ++ [(ApiMessage.mk name (Arguments.make rawArgs))]
        let p ← emulate runLog2 (ccs ++ SEvent.apiMessageReturn f (.retWrap v) :: rest)
        match p with
        | (invs, f2, w2, rest2) => do
            let retobj ← ApiMessageReturn.deserialize runLog2 f2 w2
            if retobj.from_api_message = st.runMessageLog.length then
              Except.ok (retobj.value.value, rest2, runLog2, invs)
            else Except.error (CErr.assertFailed "return references wrong call"))
      = _
    rw [hmatch]
    show (do
        let p ← emulate (st.runMessageLog ++ [(ApiMessage.mk name (Arguments.make rawArgs))])
          (ccs ++ SEvent.apiMessageReturn f (.retWrap v) :: rest)
        match p with
        | (invs, f2, w2, rest2) => do
            let retobj ← ApiMessageReturn.deserialize
              (st.runMessageLog ++ [(ApiMessage.mk name (Arguments.make rawArgs))]) f2 w2
            if retobj.from_api_message = st.runMessageLog.length then
              Except.ok (retobj.value.value, rest2,
                st.runMessageLog ++ [(ApiMessage.mk name (Arguments.make rawArgs))], invs)
            else Except.error (CErr.assertFailed "return references wrong call"))
      = _
    rw [hemu]
    show (do
        let retobj ← ApiMessageReturn.deserialize
          (st.runMessageLog ++ [(ApiMessage.mk name (Arguments.make rawArgs))]) f (.retWrap v)
        if retobj.from_api_message = st.runMessageLog.length then
          Except.ok (retobj.value.value, rest,
            st.runMessageLog ++ [(ApiMessage.mk name (Arguments.make rawArgs))],
            objs.map ClosureCall.invocation)
        else Except.error (CErr.assertFailed "return references wrong call"))
      = _
    unfold ApiMessageReturn.deserialize
    rw [show ReturnValue.deserialize (JV.retWrap v)
        = Except.ok ⟨JV.retWrap v⟩ from rfl]
    dsimp only [Bind.bind, Except.bind]
    rw [List.length_append, List.length_singleton]
    by_cases hlt : f < st.runMessageLog.length + 1
    · rw [if_pos hlt, if_pos hlt]
    · rw [if_neg hlt, if_neg hlt]
  constructor
  · intro hf
    unfold Checker.checkedMethod
    rw [hcore]
    rw [if_pos (by omega), if_pos hf]
    rfl
  · intro hf
    unfold Checker.checkedMethod
    rw [hcore]
    by_cases hlt : f < st.runMessageLog.length + 1
    · rw [if_pos hlt, if_neg hf]
      exact ⟨CErr.assertFailed "return references wrong call", rfl⟩
    · rw [if_neg hlt]
      exact ⟨CErr.tcError, rfl⟩

/-- Witness for C1 at a concrete input: the sample scenario's first call —
a recorded call `hello("chris", callback)` whose residual tail holds one
synchronous CallbackInvocation and then the CallReturn referencing it; the
callback resolves through the Call just matched and fires with the recorded
argument before the call returns. -/
theorem c1_synchronous_callbacks_replayed_witness :
    Checker.checkedMethod
      ⟨[.apiMessage "hello" [.str "chris", .closureRef 0],
        .closureCall (.closureRef 0) [.str "Hello! chris"],
        .apiMessageReturn 0 (.retWrap .undef)], [], 0⟩
      "hello" [.str "chris", .rawFn 7]
      = .ok (.retWrap .undef,
          Checker.scheduleWake ⟨[], [⟨"hello", Arguments.make [.str "chris", .rawFn 7]⟩], 0⟩,
          ([⟨⟨7⟩, Arguments.make [.str "Hello! chris"]⟩] : List ClosureCall).map
            ClosureCall.invocation) :=
  (c1_synchronous_callbacks_replayed
      ⟨[.apiMessage "hello" [.str "chris", .closureRef 0],
        .closureCall (.closureRef 0) [.str "Hello! chris"],
        .apiMessageReturn 0 (.retWrap .undef)], [], 0⟩
      "hello" [.str "chris", .rawFn 7]
      "hello" [.str "chris", .closureRef 0]
      [.closureCall (.closureRef 0) [.str "Hello! chris"]]
      [⟨⟨7⟩, Arguments.make [.str "Hello! chris"]⟩]
      0 .undef [] rfl rfl rfl).1 rfl

lemma scheduleWake_pending (l : List SEvent) (r : List ApiMessage) (p : Nat) :
    (Checker.scheduleWake ⟨l, r, p⟩).pending = if p = 0 then 1 else p := by
  unfold Checker.scheduleWake
  split <;> rfl

lemma checkedMethod_ok_state {st : Checker} {n : String} {a : List JV} {v : JV}
    {st2 : Checker} {invs : List (Nat × List JV)}
    (h : st.checkedMethod n a = .ok (v, st2, invs)) :
    ∃ l r, st2 = Checker.scheduleWake ⟨l, r, st.pending⟩ := by
  unfold Checker.checkedMethod at h
  cases hc : st.replayCore n a with
  | error e =>
      rw [hc] at h
      exact absurd h (by simp [Bind.bind, Except.bind])
  | ok t =>
      obtain ⟨w, rest2, runLog2, invs2⟩ := t
      rw [hc] at h
      simp only [Bind.bind, Except.bind, Except.ok.injEq, Prod.mk.injEq] at h
      exact ⟨rest2, runLog2, h.2.1.symm⟩

lemma wake_pending {st st2 : Checker} {inv : Option (Nat × List JV)}
    (h : st.wake = .ok (st2, inv)) :
    st2.pending ≤ max 1 (st.pending - 1) := by
  unfold Checker.wake at h
  cases hl : st.serialLog with
  | nil =>
      rw [hl] at h
      simp only [Except.ok.injEq, Prod.mk.injEq] at h
      rw [← h.1]
      exact le_max_right 1 (st.pending - 1)
  | cons e rest =>
      cases e with
      | closureCall cj aj =>
          rw [hl] at h
          dsimp only at h
          cases hd : ClosureCall.deserialize st.runMessageLog (.closureCall cj aj) with
          | error er =>
              rw [hd] at h
              exact absurd h (by simp [Bind.bind, Except.bind])
          | ok cc =>
              rw [hd] at h
              simp only [Bind.bind, Except.bind, Except.ok.injEq, Prod.mk.injEq] at h
              rw [← h.1, scheduleWake_pending]
              split
              · exact le_max_left 1 (st.pending - 1)
              · exact le_max_right 1 (st.pending - 1)
      | apiMessage nm ar =>
          rw [hl] at h
          simp only [Except.ok.injEq, Prod.mk.injEq] at h
          rw [← h.1]
          exact le_max_right 1 (st.pending - 1)
      | apiMessageReturn g gv =>
          rw [hl] at h
          simp only [Except.ok.injEq, Prod.mk.injEq] at h
          rw [← h.1]
          exact le_max_right 1 (st.pending - 1)

lemma reach_pending_le_one {log0 : List SEvent} {st : Checker}
    (h : Reach log0 st) : st.pending ≤ 1 := by
  induction h with
  | init => exact Nat.zero_le 1
  | call st n a v st2 invs hr hok ih =>
      obtain ⟨l, r, rfl⟩ := checkedMethod_ok_state hok
      rw [scheduleWake_pending]
      split
      · exact le_refl 1
      · exact ih
  | fire st st2 inv hr hp hok ih =>
      have hw := wake_pending hok
      have h0 : st.pending - 1 = 0 := by omega
      rw [h0] at hw
      simpa using hw

/-- C4: every Checker state reachable through successful instrumented calls
and deferred-task firings keeps at most one pending deferred task; arming
while one is pending is a no-op; when the deferred task runs with a
CallbackInvocation at the head of the residual Log it pops it, invokes the
callback resolved against the replayed-Calls list, and re-arms; with
anything else at the head (a Call, or an empty Log) it leaves the residual
Log and the replayed-Calls list unchanged. -/
theorem c4_single_pending_deferred_task :
    (∀ (log0 : List SEvent) (st : Checker), Reach log0 st → st.pending ≤ 1)
    ∧ (∀ st : Checker, st.pending ≠ 0 → st.scheduleWake = st)
    ∧ (∀ (st : Checker) (cj : JV) (aj : List JV) (rest : List SEvent)
        (cc : ClosureCall),
        st.serialLog = .closureCall cj aj :: rest →
        ClosureCall.deserialize st.runMessageLog (.closureCall cj aj) = .ok cc →
        st.wake = .ok (Checker.scheduleWake ⟨rest, st.runMessageLog, st.pending - 1⟩,
          some cc.invocation))
    ∧ (∀ st : Checker,
        (∀ cj aj rest, st.serialLog ≠ .closureCall cj aj :: rest) →
        st.wake = .ok (⟨st.serialLog, st.runMessageLog, st.pending - 1⟩, none)) := by
  refine ⟨fun log0 st h => reach_pending_le_one h, ?_, ?_, ?_⟩
  · intro st h
    unfold Checker.scheduleWake
    rw [if_neg h]
  · intro st cj aj rest cc hl hd
    unfold Checker.wake
    rw [hl]
    dsimp only
    rw [hd]
    rfl
  · intro st h
    unfold Checker.wake
    cases hl : st.serialLog with
    | nil => rfl
    | cons e rest =>
        cases e with
        | closureCall cj aj => exact absurd hl (h cj aj rest)
        | apiMessage nm ar => rfl
        | apiMessageReturn g gv => rfl

/-- Witness for C4 at concrete inputs: the initial state is reachable with
no pending task; arming an already-armed Checker changes nothing; firing
with a CallbackInvocation at the head pops and invokes it and re-arms;
firing over an empty residual Log leaves the logs unchanged. -/
theorem c4_single_pending_deferred_task_witness :
    (⟨[], [], 0⟩ : Checker).pending ≤ 1
    ∧ Checker.scheduleWake ⟨[], [], 1⟩ = ⟨[], [], 1⟩
    ∧ Checker.wake ⟨[.closureCall (.closureRef 0) [.int 5]],
        [⟨"m", Arguments.make [.rawFn 7]⟩], 1⟩
      = .ok (Checker.scheduleWake ⟨[], [⟨"m", Arguments.make [.rawFn 7]⟩], 0⟩,
          some (ClosureCall.invocation ⟨⟨7⟩, Arguments.make [.int 5]⟩))
    ∧ Checker.wake ⟨[], [], 1⟩ = .ok (⟨[], [], 0⟩, none) :=
  ⟨c4_single_pending_deferred_task.1 [] ⟨[], [], 0⟩ Reach.init,
   c4_single_pending_deferred_task.2.1 ⟨[], [], 1⟩ (by decide),
   c4_single_pending_deferred_task.2.2.1
     ⟨[.closureCall (.closureRef 0) [.int 5]], [⟨"m", Arguments.make [.rawFn 7]⟩], 1⟩
     (.closureRef 0) [.int 5] [] ⟨⟨7⟩, Arguments.make [.int 5]⟩ rfl rfl,
   c4_single_pending_deferred_task.2.2.2 ⟨[], [], 1⟩
     (fun cj aj rest h => List.noConfusion h)⟩

end BlackMirror
